import Mathlib

/-
Verification of the driver-search core of the f1-analyzer repository
(src/project.py), as described in spec.md.

Shallow embedding:
  * JSON scalar values are the inductive JValue; a roster element is
    either a JSON object (a list of key/value pairs, modelling a Python
    dict) or a non-object value, on which attribute access raises.
  * Python exceptions raised while processing records (AttributeError,
    TypeError) are modelled with the Except monad; catching them at the
    boundary is the match on the Except value in search_drivers_by_name.
  * The HTTP layer of _make_request is modelled by HttpResult: either a
    network failure (requests raised RequestException during the GET) or
    a response carrying a status code and an optional parsed JSON body
    (none = the body failed to decode, raising JSONDecodeError).
    response.raise_for_status raises for status codes in [400, 600).
  * Python string lowering is pyLower (per-character lowering, giving a
    character list); the Python substring test needle in hay is strIn
    over character lists.
-/

namespace F1

/-- Scalar JSON values as they appear inside a driver record. -/
inductive JValue where
  | jnull : JValue
  | jnum (n : Int) : JValue
  | jstr (s : String) : JValue
deriving DecidableEq, Repr

/-- One element of the decoded roster array: a JSON object (Python dict)
or a non-object value, on which method access raises AttributeError. -/
inductive RawElem where
  | obj (fields : List (String × JValue)) : RawElem
  | nonObj (v : JValue) : RawElem
deriving DecidableEq, Repr

/-- Python dict.get with an explicit default: the value of the first
binding of the key, or the default when the key is absent. -/
def pyDictGet (fields : List (String × JValue)) (key : String) (dflt : JValue) : JValue :=
  match fields.find? (fun p => p.fst = key) with
  | some p => p.snd
  | none => dflt

/-- Whether a key is present in a record. -/
def hasKey (fields : List (String × JValue)) (key : String) : Bool :=
  (fields.find? (fun p => p.fst = key)).isSome

/-- Python substring membership needle in hay, over character lists:
true when needle occurs contiguously in hay (the empty needle always
occurs). -/
def strIn (needle : List Char) : List Char → Bool
  | [] => needle.isEmpty
  | c :: rest => needle.isPrefixOf (c :: rest) || strIn needle rest

/-- Python str.lower, as the character list of the lowered string. -/
def pyLower (s : String) : List Char := s.data.map Char.toLower

/-- Python str.strip: remove leading and trailing whitespace. -/
def trimChars (cs : List Char) : List Char :=
  ((cs.dropWhile Char.isWhitespace).reverse.dropWhile Char.isWhitespace).reverse

/-- The Driver dataclass of src/project.py lines 10-18.  Field values are
kept as JValue because the Python constructor accepts whatever the dict
lookup produced (an absent driver_number key yields None). -/
structure Driver where
  driver_number : JValue
  first_name : JValue
  last_name : JValue
  team_name : JValue
  team_colour : JValue
  country_code : JValue
  headshot_url : JValue
deriving DecidableEq, Repr

/-- Construction of a Driver from a matched record, src/project.py lines
65-73: driver_number is fetched with no default (so an absent key gives
None), the six string fields default to the empty string. -/
def mkDriverObj (fs : List (String × JValue)) : Driver where
  driver_number := pyDictGet fs "driver_number" JValue.jnull
  first_name := pyDictGet fs "first_name" (JValue.jstr "")
  last_name := pyDictGet fs "last_name" (JValue.jstr "")
  team_name := pyDictGet fs "team_name" (JValue.jstr "")
  team_colour := pyDictGet fs "team_colour" (JValue.jstr "")
  country_code := pyDictGet fs "country_code" (JValue.jstr "")
  headshot_url := pyDictGet fs "headshot_url" (JValue.jstr "")

/-- The match test of src/project.py lines 63-64 on a record that is an
object: name.lower() in first_name.lower() or name.lower() in
last_name.lower(), with Python short-circuit evaluation; calling .lower()
on a non-string value raises AttributeError, modelled as Except.error. -/
def recordMatchesObj (name : String) (fs : List (String × JValue)) : Except Unit Bool :=
  match pyDictGet fs "first_name" (JValue.jstr "") with
  | JValue.jstr f =>
    if strIn (pyLower name) (pyLower f) then Except.ok true
    else
      match pyDictGet fs "last_name" (JValue.jstr "") with
      | JValue.jstr l => Except.ok (strIn (pyLower name) (pyLower l))
      | _ => Except.error ()
  | _ => Except.error ()

/-- The match test on an arbitrary roster element: calling .get on a
non-object element raises AttributeError. -/
def recordMatches (name : String) : RawElem → Except Unit Bool
  | RawElem.obj fs => recordMatchesObj name fs
  | RawElem.nonObj _ => Except.error ()

/-- The loop of src/project.py lines 60-75: walk the roster, keep a
Driver for each matching record; any AttributeError or TypeError raised
while processing aborts the whole loop (the partial list is discarded by
the except handler of lines 77-79). -/
def processRoster (name : String) : List RawElem → Except Unit (List Driver)
  | [] => Except.ok []
  | RawElem.nonObj _ :: _ => Except.error ()
  | RawElem.obj fs :: rest =>
    match recordMatchesObj name fs with
    | Except.error e => Except.error e
    | Except.ok m =>
      match processRoster name rest with
      | Except.error e => Except.error e
      | Except.ok ds => Except.ok (if m then mkDriverObj fs :: ds else ds)

/-- Outcome of the HTTP GET inside _make_request: a network failure
raised by the requests library, or a response with a status code and an
optional decoded JSON body (none models a JSONDecodeError from
response.json). -/
inductive HttpResult (α : Type) where
  | netFailure : HttpResult α
  | response (status : Nat) (body : Option α) : HttpResult α
deriving DecidableEq, Repr

/-- F1DriverAPI._make_request, src/project.py lines 26-37: return the
decoded JSON body, or None after catching RequestException (raised by
the GET itself or by raise_for_status on a 4xx/5xx status) or
JSONDecodeError. -/
def make_request {α : Type} : HttpResult α → Option α
  | HttpResult.netFailure => none
  | HttpResult.response status body =>
    if 400 ≤ status ∧ status < 600 then none
    else
      match body with
      | none => none
      | some j => some j

/-- F1DriverAPI.search_drivers_by_name, src/project.py lines 39-79, as a
function of the query and of the HTTP outcome of the roster fetch: a
failed fetch (None) or an empty roster returns [] (the if not data
check); otherwise the roster is filtered, and any AttributeError or
TypeError raised while processing is caught and turned into []. -/
def search_drivers_by_name (name : String) (resp : HttpResult (List RawElem)) : List Driver :=
  match make_request resp with
  | none => []
  | some data =>
    if data.isEmpty then []
    else
      match processRoster name data with
      | Except.ok ds => ds
      | Except.error _ => []

/-- Modelled from the spec (section 4.2), for refinement comparison only:
the matching predicate the spec describes, which additionally tests the
query against full_name = trim(first_name + " " + last_name) lowered.
The code in src/project.py has no such full-name path. -/
def specNameMatch (query : String) (fs : List (String × JValue)) : Bool :=
  match pyDictGet fs "first_name" (JValue.jstr ""), pyDictGet fs "last_name" (JValue.jstr "") with
  | JValue.jstr f, JValue.jstr l =>
    strIn (pyLower query) (pyLower f) ||
    strIn (pyLower query) (pyLower l) ||
    strIn (pyLower query) ((trimChars (f ++ " " ++ l).data).map Char.toLower)
  | _, _ => false

/-- Boolean form of the match test, true exactly when the match test
succeeds without raising and returns true. -/
def matchesB (name : String) (r : RawElem) : Bool :=
  match recordMatches name r with
  | Except.ok true => true
  | _ => false

/-- Total form of the Driver construction on roster elements (a
non-object element never reaches the construction, since its match test
raises first). -/
def mkDriver : RawElem → Driver
  | RawElem.obj fs => mkDriverObj fs
  | RawElem.nonObj _ => mkDriverObj []

/-- A roster element is well formed when it is an object whose
first_name and last_name lookups (with their empty-string defaults) are
strings, so the match test cannot raise on it. -/
def wfElem : RawElem → Bool
  | RawElem.obj fs =>
    (match pyDictGet fs "first_name" (JValue.jstr ""),
           pyDictGet fs "last_name" (JValue.jstr "") with
     | JValue.jstr _, JValue.jstr _ => true
     | _, _ => false)
  | RawElem.nonObj _ => false

/-- Concrete record with first_name Max and last_name Verstappen, used to
probe the full-name concatenation path described by the spec. -/
def mvFields : List (String × JValue) :=
  [("driver_number", JValue.jnum 1), ("first_name", JValue.jstr "Max"),
   ("last_name", JValue.jstr "Verstappen")]

/-- Concrete record from the test suite (src/test_project.py lines
10-20): the Lewis Hamilton roster entry. -/
def lhFields : List (String × JValue) :=
  [("driver_number", JValue.jnum 1), ("first_name", JValue.jstr "Lewis"),
   ("last_name", JValue.jstr "Hamilton"), ("team_name", JValue.jstr "Mercedes"),
   ("team_colour", JValue.jstr "#00D2BE"), ("country_code", JValue.jstr "GBR"),
   ("headshot_url", JValue.jstr "https://example.com/hamilton.jpg")]

end F1

namespace F1

/-- The empty character list is a substring of every character list. -/
theorem strIn_nil (l : List Char) : strIn [] l = true := by
  cases l <;> rfl

/-- On a well-formed record the match test does not raise and returns
its boolean form. -/
theorem recordMatchesObj_wf (q : String) (fs : List (String × JValue))
    (h : wfElem (RawElem.obj fs) = true) :
    recordMatchesObj q fs = Except.ok (matchesB q (RawElem.obj fs)) := by
  simp only [wfElem] at h
  cases h1 : pyDictGet fs "first_name" (JValue.jstr "") with
  | jstr f =>
    cases h2 : pyDictGet fs "last_name" (JValue.jstr "") with
    | jstr l =>
      simp only [matchesB, recordMatches, recordMatchesObj, h1, h2]
      cases hc : strIn (pyLower q) (pyLower f) with
      | true => simp [hc]
      | false =>
        simp only [hc, Bool.false_eq_true, if_false]
        cases strIn (pyLower q) (pyLower l) <;> rfl
    | jnull => rw [h1, h2] at h; simp at h
    | jnum n => rw [h1, h2] at h; simp at h
  | jnull => rw [h1] at h; simp at h
  | jnum n => rw [h1] at h; simp at h

/-- Whatever list the roster loop returns without raising is the filter
of the roster by the match test, mapped through the Driver
construction. -/
theorem processRoster_ok_eq (q : String) (data : List RawElem) (ds : List Driver)
    (h : processRoster q data = Except.ok ds) :
    ds = (data.filter (matchesB q)).map mkDriver := by
  induction data generalizing ds with
  | nil =>
    simp only [processRoster] at h
    cases h
    rfl
  | cons r rest ih =>
    cases r with
    | nonObj v => simp only [processRoster] at h; simp at h
    | obj fs =>
      simp only [processRoster] at h
      cases hm : recordMatchesObj q fs with
      | error e => rw [hm] at h; simp at h
      | ok m =>
        rw [hm] at h
        simp only [] at h
        cases hr : processRoster q rest with
        | error e => rw [hr] at h; simp at h
        | ok ds2 =>
          rw [hr] at h
          simp at h
          have hmb : matchesB q (RawElem.obj fs) = m := by
            cases m <;> simp [matchesB, recordMatches, hm]
          rw [← h, List.filter_cons, hmb]
          cases m with
          | true => simp [mkDriver, ih ds2 hr]
          | false => simp [ih ds2 hr]

/-- On a roster of well-formed records the loop cannot raise: it returns
exactly the filtered, normalized list. -/
theorem processRoster_wf (q : String) (data : List RawElem)
    (h : ∀ r ∈ data, wfElem r = true) :
    processRoster q data = Except.ok ((data.filter (matchesB q)).map mkDriver) := by
  induction data with
  | nil => rfl
  | cons r rest ih =>
    have hr := h r (List.mem_cons_self r rest)
    have hrest : ∀ x ∈ rest, wfElem x = true := fun x hx => h x (List.mem_cons_of_mem _ hx)
    cases r with
    | nonObj v => simp [wfElem] at hr
    | obj fs =>
      simp only [processRoster]
      rw [recordMatchesObj_wf q fs hr, ih hrest]
      rw [List.filter_cons]
      cases hmb : matchesB q (RawElem.obj fs) <;> simp [hmb, mkDriver]

/-- A successful 200 response with a decoded body passes through the
request helper unchanged. -/
theorem make_request_200 (data : List RawElem) :
    make_request (HttpResult.response 200 (some data)) = some data := rfl

/-- Unfolding of the search when the fetch fails. -/
theorem search_unfold_none (q : String) (resp : HttpResult (List RawElem))
    (h : make_request resp = none) :
    search_drivers_by_name q resp = [] := by
  unfold search_drivers_by_name
  rw [h]

/-- Unfolding of the search when the fetch yields a roster. -/
theorem search_unfold_some (q : String) (data : List RawElem)
    (resp : HttpResult (List RawElem)) (h : make_request resp = some data) :
    search_drivers_by_name q resp =
      (if data.isEmpty then []
       else
        match processRoster q data with
        | Except.ok ds => ds
        | Except.error _ => []) := by
  unfold search_drivers_by_name
  rw [h]

/-- The match test depends on the query only through its lowering. -/
theorem recordMatchesObj_congr (q1 q2 : String) (h : pyLower q1 = pyLower q2)
    (fs : List (String × JValue)) :
    recordMatchesObj q1 fs = recordMatchesObj q2 fs := by
  unfold recordMatchesObj
  rw [h]

/-- The roster loop depends on the query only through its lowering. -/
theorem processRoster_congr (q1 q2 : String) (h : pyLower q1 = pyLower q2)
    (data : List RawElem) :
    processRoster q1 data = processRoster q2 data := by
  induction data with
  | nil => rfl
  | cons r rest ih =>
    cases r with
    | nonObj v => rfl
    | obj fs =>
      simp only [processRoster]
      rw [recordMatchesObj_congr q1 q2 h fs, ih]

/-- On a well-formed record the empty query always matches. -/
theorem matchesB_nil_query (r : RawElem) (h : wfElem r = true) :
    matchesB "" r = true := by
  cases r with
  | nonObj v => simp [wfElem] at h
  | obj fs =>
    simp only [wfElem] at h
    cases h1 : pyDictGet fs "first_name" (JValue.jstr "") with
    | jstr f =>
      have hn : pyLower "" = ([] : List Char) := rfl
      simp [matchesB, recordMatches, recordMatchesObj, h1, hn, strIn_nil]
    | jnull => rw [h1] at h; simp at h
    | jnum n => rw [h1] at h; simp at h

end F1

namespace F1

/-- C1. The claim states that a query matching the trimmed lowercased
concatenation first_name + " " + last_name is included by
search_drivers_by_name, so that the query "max ver" matches a record with
first_name Max and last_name Verstappen.  This is false of the code: the
match test of src/project.py lines 63-64 checks only the first name and
the last name.  At the Max Verstappen record the spec predicate (with
its full-name path) holds, yet the search returns the empty list. -/
theorem C1_counterexample :
    specNameMatch "max ver" mvFields = true ∧
    search_drivers_by_name "max ver" (HttpResult.response 200 (some [RawElem.obj mvFields])) = [] :=
  ⟨by decide, by decide⟩

/-- C1 (amended). For every roster of well-formed records and every
query, a record whose first name or last name contains the lowercased
query (the only two paths the code tests) contributes its Driver to the
result of search_drivers_by_name; there is no full-name concatenation
path, so the query "max ver" does not match the Max Verstappen record. -/
theorem C1_search_includes_first_last_match (q : String) (roster : List RawElem)
    (r : RawElem) (hwf : ∀ x ∈ roster, wfElem x = true) (hr : r ∈ roster)
    (hm : matchesB q r = true) :
    mkDriver r ∈ search_drivers_by_name q (HttpResult.response 200 (some roster)) := by
  have hproc := processRoster_wf q roster hwf
  have hne : roster.isEmpty = false := by
    cases roster with
    | nil => simp at hr
    | cons a as => rfl
  rw [search_unfold_some q roster (HttpResult.response 200 (some roster)) (make_request_200 roster)]
  simp only [hne, Bool.false_eq_true, if_false, hproc]
  exact List.mem_map_of_mem mkDriver (List.mem_filter.mpr ⟨hr, hm⟩)

/-- C1 witness: the record with first_name Max matches the query Max via
the first-name path and is returned. -/
theorem C1_witness :
    mkDriver (RawElem.obj mvFields) ∈
      search_drivers_by_name "Max" (HttpResult.response 200 (some [RawElem.obj mvFields])) :=
  C1_search_includes_first_last_match "Max" [RawElem.obj mvFields] (RawElem.obj mvFields)
    (by decide) (by decide) (by decide)

/-- C2. A failed fetch (sentinel None), an empty roster, or an
AttributeError or TypeError raised while processing the records all make
search_drivers_by_name return the empty list; the function is total, so
no exception reaches the caller. -/
theorem C2_search_error_paths (q : String) (resp : HttpResult (List RawElem)) :
    (make_request resp = none → search_drivers_by_name q resp = []) ∧
    (make_request resp = some [] → search_drivers_by_name q resp = []) ∧
    (∀ data, make_request resp = some data → processRoster q data = Except.error () →
      search_drivers_by_name q resp = []) := by
  refine ⟨?_, ?_, ?_⟩
  · intro h
    exact search_unfold_none q resp h
  · intro h
    rw [search_unfold_some q [] resp h]
    rfl
  · intro data h1 h2
    rw [search_unfold_some q data resp h1]
    cases data with
    | nil => rfl
    | cons a as => simp [h2]

/-- C2 witness: the three error paths at concrete inputs, namely a
network failure, an empty roster, and a roster whose only element is not
an object (so that processing raises AttributeError). -/
theorem C2_witness :
    search_drivers_by_name "x" (HttpResult.netFailure : HttpResult (List RawElem)) = [] ∧
    search_drivers_by_name "x" (HttpResult.response 200 (some [])) = [] ∧
    search_drivers_by_name "x"
      (HttpResult.response 200 (some [RawElem.nonObj JValue.jnull])) = [] :=
  ⟨(C2_search_error_paths "x" HttpResult.netFailure).1 rfl,
   (C2_search_error_paths "x" (HttpResult.response 200 (some []))).2.1 rfl,
   (C2_search_error_paths "x" (HttpResult.response 200 (some [RawElem.nonObj JValue.jnull]))).2.2
     [RawElem.nonObj JValue.jnull] rfl rfl⟩

/-- C3. The request helper returns the decoded body on a 2xx status with
valid JSON, and the sentinel None on a network failure or a JSON decode
failure; being a total function, it never raises to its caller. -/
theorem C3_make_request_contract :
    (∀ (s : Nat) (j : List RawElem), 200 ≤ s → s < 300 →
      make_request (HttpResult.response s (some j)) = some j) ∧
    make_request (HttpResult.netFailure : HttpResult (List RawElem)) = none ∧
    (∀ (s : Nat), make_request (HttpResult.response s (none : Option (List RawElem))) = none) := by
  refine ⟨?_, rfl, ?_⟩
  · intro s j h1 h2
    have hno : ¬(400 ≤ s ∧ s < 600) := by omega
    simp [make_request, hno]
  · intro s
    by_cases hs : 400 ≤ s ∧ s < 600 <;> simp [make_request, hs]

/-- C3 witness: the contract at status 200 with a concrete body, at a
network failure, and at a decode failure with status 200. -/
theorem C3_witness :
    make_request (HttpResult.response 200 (some [RawElem.obj lhFields])) =
      some [RawElem.obj lhFields] ∧
    make_request (HttpResult.netFailure : HttpResult (List RawElem)) = none ∧
    make_request (HttpResult.response 200 (none : Option (List RawElem))) = none :=
  ⟨C3_make_request_contract.1 200 [RawElem.obj lhFields] (by decide) (by decide),
   C3_make_request_contract.2.1,
   C3_make_request_contract.2.2 200⟩

/-- C4. Soundness of the filter: every Driver returned by
search_drivers_by_name was built (by the construction of lines 65-73)
from a roster record on which the match test succeeded and returned
true; no non-matching record contributes a Driver. -/
theorem C4_search_sound (q : String) (resp : HttpResult (List RawElem)) (d : Driver)
    (hd : d ∈ search_drivers_by_name q resp) :
    ∃ data r, make_request resp = some data ∧ r ∈ data ∧
      recordMatches q r = Except.ok true ∧ d = mkDriver r := by
  cases hmr : make_request resp with
  | none => rw [search_unfold_none q resp hmr] at hd; simp at hd
  | some data =>
    rw [search_unfold_some q data resp hmr] at hd
    cases he : data.isEmpty with
    | true => rw [he] at hd; simp at hd
    | false =>
      rw [he] at hd
      simp only [Bool.false_eq_true, if_false] at hd
      cases hp : processRoster q data with
      | error e => rw [hp] at hd; simp at hd
      | ok ds =>
        rw [hp] at hd
        simp only [] at hd
        rw [processRoster_ok_eq q data ds hp] at hd
        obtain ⟨r, hrf, hdr⟩ := List.mem_map.mp hd
        obtain ⟨hrm, hmb⟩ := List.mem_filter.mp hrf
        refine ⟨data, r, rfl, hrm, ?_, hdr.symm⟩
        unfold matchesB at hmb
        cases hq : recordMatches q r with
        | error e => rw [hq] at hmb; simp at hmb
        | ok b =>
          rw [hq] at hmb
          cases b with
          | true => rfl
          | false => simp at hmb

/-- C4 witness: the single Driver returned for the query lewis on the
one-record Hamilton roster comes from a matching record. -/
theorem C4_witness :
    ∃ data r,
      make_request (HttpResult.response 200 (some [RawElem.obj lhFields])) = some data ∧
      r ∈ data ∧ recordMatches "lewis" r = Except.ok true ∧
      mkDriver (RawElem.obj lhFields) = mkDriver r :=
  C4_search_sound "lewis" (HttpResult.response 200 (some [RawElem.obj lhFields]))
    (mkDriver (RawElem.obj lhFields)) (by decide)

end F1

namespace F1

/-- A lookup with a default on a record lacking the key gives the
default. -/
theorem pyDictGet_of_not_hasKey (fs : List (String × JValue)) (k : String) (d : JValue)
    (h : hasKey fs k = false) : pyDictGet fs k d = d := by
  simp only [hasKey] at h
  cases hf : List.find? (fun p => p.fst = k) fs with
  | some p => rw [hf] at h; simp at h
  | none => simp [pyDictGet, hf]

/-- C5. The claim states that every missing field defaults to the empty
string, including driver_number.  This is false of the code: line 66
fetches driver_number with dict.get and no default, so a record without
that key yields None.  On the one-record roster whose record has only a
first_name, the query lewis returns a Driver whose driver_number is None
(jnull), not the empty string. -/
theorem C5_counterexample :
    search_drivers_by_name "lewis"
        (HttpResult.response 200 (some [RawElem.obj [("first_name", JValue.jstr "Lewis")]])) =
      [{ driver_number := JValue.jnull, first_name := JValue.jstr "Lewis",
         last_name := JValue.jstr "", team_name := JValue.jstr "",
         team_colour := JValue.jstr "", country_code := JValue.jstr "",
         headshot_url := JValue.jstr "" }] ∧
    JValue.jnull ≠ JValue.jstr "" :=
  ⟨by decide, by decide⟩

/-- C5 (amended). During normalization each of the six string fields
missing from the raw record defaults to the empty string, while a
missing driver_number defaults to None (jnull), not to the empty
string. -/
theorem C5_field_defaults (fs : List (String × JValue)) :
    (hasKey fs "driver_number" = false → (mkDriverObj fs).driver_number = JValue.jnull) ∧
    (hasKey fs "first_name" = false → (mkDriverObj fs).first_name = JValue.jstr "") ∧
    (hasKey fs "last_name" = false → (mkDriverObj fs).last_name = JValue.jstr "") ∧
    (hasKey fs "team_name" = false → (mkDriverObj fs).team_name = JValue.jstr "") ∧
    (hasKey fs "team_colour" = false → (mkDriverObj fs).team_colour = JValue.jstr "") ∧
    (hasKey fs "country_code" = false → (mkDriverObj fs).country_code = JValue.jstr "") ∧
    (hasKey fs "headshot_url" = false → (mkDriverObj fs).headshot_url = JValue.jstr "") := by
  exact ⟨fun h => pyDictGet_of_not_hasKey fs "driver_number" JValue.jnull h,
    fun h => pyDictGet_of_not_hasKey fs "first_name" (JValue.jstr "") h,
    fun h => pyDictGet_of_not_hasKey fs "last_name" (JValue.jstr "") h,
    fun h => pyDictGet_of_not_hasKey fs "team_name" (JValue.jstr "") h,
    fun h => pyDictGet_of_not_hasKey fs "team_colour" (JValue.jstr "") h,
    fun h => pyDictGet_of_not_hasKey fs "country_code" (JValue.jstr "") h,
    fun h => pyDictGet_of_not_hasKey fs "headshot_url" (JValue.jstr "") h⟩

/-- C5 witness: the defaults at the empty record. -/
theorem C5_witness :
    (mkDriverObj []).driver_number = JValue.jnull ∧
    (mkDriverObj []).first_name = JValue.jstr "" ∧
    (mkDriverObj []).last_name = JValue.jstr "" ∧
    (mkDriverObj []).team_name = JValue.jstr "" ∧
    (mkDriverObj []).team_colour = JValue.jstr "" ∧
    (mkDriverObj []).country_code = JValue.jstr "" ∧
    (mkDriverObj []).headshot_url = JValue.jstr "" :=
  ⟨(C5_field_defaults []).1 rfl, (C5_field_defaults []).2.1 rfl,
   (C5_field_defaults []).2.2.1 rfl, (C5_field_defaults []).2.2.2.1 rfl,
   (C5_field_defaults []).2.2.2.2.1 rfl, (C5_field_defaults []).2.2.2.2.2.1 rfl,
   (C5_field_defaults []).2.2.2.2.2.2 rfl⟩

/-- C6. The search result depends on the query only through its
lowering, so two queries differing only in letter case give identical
results; and on a record with given first and last names the match test
is plain substring containment of the lowered query in the lowered
names, with no other logic. -/
theorem C6_case_insensitive (q1 q2 : String) (resp : HttpResult (List RawElem))
    (h : pyLower q1 = pyLower q2) :
    search_drivers_by_name q1 resp = search_drivers_by_name q2 resp ∧
    (∀ (f l : String),
      matchesB q1 (RawElem.obj [("first_name", JValue.jstr f), ("last_name", JValue.jstr l)]) =
        (strIn (pyLower q1) (pyLower f) || strIn (pyLower q1) (pyLower l))) := by
  constructor
  · cases hmr : make_request resp with
    | none =>
      rw [search_unfold_none q1 resp hmr, search_unfold_none q2 resp hmr]
    | some data =>
      rw [search_unfold_some q1 data resp hmr, search_unfold_some q2 data resp hmr,
        processRoster_congr q1 q2 h data]
  · intro f l
    have h1 : pyDictGet [("first_name", JValue.jstr f), ("last_name", JValue.jstr l)]
        "first_name" (JValue.jstr "") = JValue.jstr f := rfl
    have h2 : pyDictGet [("first_name", JValue.jstr f), ("last_name", JValue.jstr l)]
        "last_name" (JValue.jstr "") = JValue.jstr l := rfl
    simp only [matchesB, recordMatches, recordMatchesObj, h1, h2]
    cases hb : strIn (pyLower q1) (pyLower f) with
    | true => simp [hb]
    | false =>
      simp only [hb, Bool.false_eq_true, if_false, Bool.false_or]
      cases strIn (pyLower q1) (pyLower l) <;> rfl

/-- C6 witness: the queries LEWIS and lewis agree on the Hamilton
roster, and the match test on the Hamilton names is the substring
test. -/
theorem C6_witness :
    search_drivers_by_name "LEWIS" (HttpResult.response 200 (some [RawElem.obj lhFields])) =
      search_drivers_by_name "lewis" (HttpResult.response 200 (some [RawElem.obj lhFields])) ∧
    matchesB "LEWIS"
        (RawElem.obj [("first_name", JValue.jstr "Lewis"), ("last_name", JValue.jstr "Hamilton")]) =
      (strIn (pyLower "LEWIS") (pyLower "Lewis") || strIn (pyLower "LEWIS") (pyLower "Hamilton")) :=
  ⟨(C6_case_insensitive "LEWIS" "lewis"
      (HttpResult.response 200 (some [RawElem.obj lhFields])) (by decide)).1,
   (C6_case_insensitive "LEWIS" "lewis"
      (HttpResult.response 200 (some [RawElem.obj lhFields])) (by decide)).2 "Lewis" "Hamilton"⟩

/-- C7. When the fetch yields a roster and processing raises nothing,
the search result is exactly the roster filtered by the match test and
mapped through the Driver construction: matching records appear in
roster order and each contributes exactly one Driver, with no
de-duplication and no reordering. -/
theorem C7_order_preserved (q : String) (resp : HttpResult (List RawElem))
    (data : List RawElem) (ds : List Driver)
    (h1 : make_request resp = some data) (h2 : processRoster q data = Except.ok ds) :
    search_drivers_by_name q resp = (data.filter (matchesB q)).map mkDriver := by
  rw [search_unfold_some q data resp h1]
  cases data with
  | nil => rfl
  | cons a as =>
    simp only [List.isEmpty_cons, Bool.false_eq_true, if_false, h2]
    exact processRoster_ok_eq q (a :: as) ds h2

/-- C7 witness: a two-record roster in which both records match the
query a, returned in roster order. -/
theorem C7_witness :
    search_drivers_by_name "a"
        (HttpResult.response 200 (some [RawElem.obj lhFields, RawElem.obj mvFields])) =
      ([RawElem.obj lhFields, RawElem.obj mvFields].filter (matchesB "a")).map mkDriver :=
  C7_order_preserved "a" (HttpResult.response 200 (some [RawElem.obj lhFields, RawElem.obj mvFields]))
    [RawElem.obj lhFields, RawElem.obj mvFields]
    [mkDriverObj lhFields, mkDriverObj mvFields] rfl rfl

/-- C8. On the one-record Hamilton roster of the test suite, the query
lewis returns exactly one Driver carrying the fields of the record, and
the query nonexistent returns the empty list. -/
theorem C8_lewis_scenarios :
    search_drivers_by_name "lewis" (HttpResult.response 200 (some [RawElem.obj lhFields])) =
      [{ driver_number := JValue.jnum 1, first_name := JValue.jstr "Lewis",
         last_name := JValue.jstr "Hamilton", team_name := JValue.jstr "Mercedes",
         team_colour := JValue.jstr "#00D2BE", country_code := JValue.jstr "GBR",
         headshot_url := JValue.jstr "https://example.com/hamilton.jpg" }] ∧
    search_drivers_by_name "nonexistent"
        (HttpResult.response 200 (some [RawElem.obj lhFields])) = [] :=
  ⟨by decide, by decide⟩

/-- C9. With the empty query every well-formed record matches (the empty
string is a substring of every name), so the search returns one Driver
per roster record, in order. -/
theorem C9_empty_query_matches_all (roster : List RawElem)
    (hwf : ∀ x ∈ roster, wfElem x = true) :
    search_drivers_by_name "" (HttpResult.response 200 (some roster)) =
      roster.map mkDriver := by
  have hproc := processRoster_wf "" roster hwf
  have hfilter : roster.filter (matchesB "") = roster :=
    List.filter_eq_self.mpr (fun r hr => matchesB_nil_query r (hwf r hr))
  rw [search_unfold_some "" roster (HttpResult.response 200 (some roster))
    (make_request_200 roster)]
  cases hros : roster with
  | nil => rfl
  | cons a as =>
    rw [← hros]
    have hne : roster.isEmpty = false := by rw [hros]; rfl
    simp only [hne, Bool.false_eq_true, if_false, hproc, hfilter]

/-- C9 witness: the empty query on the two-record roster returns both
Drivers in order. -/
theorem C9_witness :
    search_drivers_by_name ""
        (HttpResult.response 200 (some [RawElem.obj lhFields, RawElem.obj mvFields])) =
      [RawElem.obj lhFields, RawElem.obj mvFields].map mkDriver :=
  C9_empty_query_matches_all [RawElem.obj lhFields, RawElem.obj mvFields] (by decide)

/-- C10. A matching record without the driver_number key yields a Driver
whose driver_number is None (jnull): not the empty string and not a
number, unlike the six string fields which default to the empty
string. -/
theorem C10_driver_number_none (fs : List (String × JValue))
    (h : hasKey fs "driver_number" = false) :
    (mkDriverObj fs).driver_number = JValue.jnull ∧
    JValue.jnull ≠ JValue.jstr "" ∧
    (∀ n : Int, JValue.jnull ≠ JValue.jnum n) := by
  exact ⟨pyDictGet_of_not_hasKey fs "driver_number" JValue.jnull h,
    by decide, fun n h2 => by cases h2⟩

/-- C10 witness: the record holding only a first_name yields jnull. -/
theorem C10_witness :
    (mkDriverObj [("first_name", JValue.jstr "Lewis")]).driver_number = JValue.jnull ∧
    JValue.jnull ≠ JValue.jstr "" ∧
    (∀ n : Int, JValue.jnull ≠ JValue.jnum n) :=
  C10_driver_number_none [("first_name", JValue.jstr "Lewis")] rfl

end F1
